import Mathlib

/-!
Verification of `src/graph.py` against its specification.

The script builds a small directed diagram (four labeled nodes, three
edges) with an external graph-drawing library and renders it to a PNG
file.  The library itself is not part of the repository, so its
operations (`Digraph`, `node`, `edges`, `edge`, `render`) are modelled
here from the specification's component contract (§4.1): nodes live in
an ordered collection with overwrite-on-duplicate-id semantics, edges
are appended without any validation of their endpoints, and `render`
serializes the graph and writes one output file named from the base
name plus the format extension, failing exactly when the external
renderer is missing or the output path is not writable.
-/

namespace GraphViz

/-- A node of the diagram: an identifier and a human-readable label. -/
structure Node where
  id : String
  label : String
deriving DecidableEq, Repr

/-- A directed edge: ordered (source, target) identifiers and an optional label. -/
structure Edge where
  src : String
  tgt : String
  label : Option String
deriving DecidableEq, Repr

/-- A graph: a title comment, an ordered node collection and an ordered edge collection. -/
structure Digraph where
  comment : String
  nodes : List Node
  edges : List Edge
deriving DecidableEq, Repr

/-- Modelled from the spec: `create(title)` initializes an empty graph with the
given title (`Digraph(comment=...)` in the script). -/
def Digraph.create (title : String) : Digraph :=
  { comment := title, nodes := [], edges := [] }

/-- Modelled from the spec: `add_node(handle, id, label)` registers a node; if
`id` already exists its definition is overwritten (last write wins). -/
def Digraph.node (g : Digraph) (i l : String) : Digraph :=
  if g.nodes.any (fun n => n.id == i) then
    { g with nodes := g.nodes.map (fun n => if n.id == i then ⟨i, l⟩ else n) }
  else
    { g with nodes := g.nodes ++ [⟨i, l⟩] }

/-- Modelled from the spec: `add_edge(handle, from_id, to_id, label | absent)`
registers a directed edge; it does not validate that the endpoints were
previously added via `add_node`. -/
def Digraph.edge (g : Digraph) (f t : String) (l : Option String) : Digraph :=
  { g with edges := g.edges ++ [⟨f, t, l⟩] }

/-- Modelled from the spec: the batch edge call (`dot.edges(['AB', 'BC'])` in
the script) adds one unlabeled edge per two-character string, its first
character the source identifier and its second the target. -/
def Digraph.addEdges (g : Digraph) (l : List String) : Digraph :=
  l.foldl (fun h s => h.edge (s.take 1) (s.drop 1) none) g

/-- Retrieval of a node's label by identifier, the spec's notion of a node
being "retrievable by its identifier with its assigned label unchanged". -/
def Digraph.lookupNode (g : Digraph) (i : String) : Option String :=
  (g.nodes.find? (fun n => n.id == i)).map (fun n => n.label)

/-- The textual graph description handed to the external rendering engine
(nodes, edges, labels).  Modelled from the spec: only its determinism in the
graph matters, not its concrete syntax. -/
def Node.describe (n : Node) : String :=
  "node " ++ n.id ++ " label " ++ n.label

/-- Textual description of one edge. -/
def Edge.describe (e : Edge) : String :=
  "edge " ++ e.src ++ " -> " ++ e.tgt ++
    (match e.label with
     | none => ""
     | some l => " label " ++ l)

/-- Textual description of the whole graph. -/
def Digraph.describe (g : Digraph) : String :=
  "digraph " ++ g.comment ++ "\n"
    ++ String.intercalate "\n" (g.nodes.map Node.describe) ++ "\n"
    ++ String.intercalate "\n" (g.edges.map Edge.describe)

/-- The filesystem seen by `render`: a map from file names to file contents. -/
def FS : Type := String → Option String

/-- Writing a file: overwrites any previous content under the same name. -/
def FS.write (fs : FS) (name content : String) : FS :=
  fun n => if n = name then some content else fs n

/-- Modelled from the spec: the two failure kinds of `render`
(`WriteFailure` / `MissingRenderer`), surfaced by propagation. -/
inductive RenderError where
  | writeFailure
  | externalToolMissing
deriving DecidableEq, Repr

/-- Modelled from the spec: `render(handle, output_name, format, auto_open)`
serializes the graph and writes it to disk under `output_name` with the
format extension, returning the written file's name; it fails with
`externalToolMissing` when the external rendering engine is absent and with
`writeFailure` when the output path is not writable.  The `auto_open` viewer
side effect is detached and unobserved, so it does not influence the result. -/
def Digraph.render (g : Digraph) (outputName format : String)
    (rendererPresent writable autoOpen : Bool) (fs : FS) :
    FS × Except RenderError String :=
  if rendererPresent then
    if writable then
      let out := outputName ++ "." ++ format
      (FS.write fs out g.describe, Except.ok out)
    else
      (fs, Except.error RenderError.writeFailure)
  else
    (fs, Except.error RenderError.externalToolMissing)

/-- The process environment: the script consumes no arguments, environment
variables or input files, so the build below ignores this value. -/
structure Env where
  argv : List String
  environ : List (String × String)
  stdinData : String
deriving DecidableEq, Repr

/-- The graph built by `src/graph.py`, as a function of the process
environment (which the script never reads): create the titled graph, add the
four labeled nodes, add the batch edges `['AB', 'BC']`, add the labeled edge
`A -> D`. -/
def buildGraph (env : Env) : Digraph :=
  (((((((Digraph.create "Architecture Blockchain e-Sante").node
    "A" "Microservice medcin").node
    "B" "Blockchain Node").node
    "C" "Base de Donnees").node
    "D" "Docker Container").addEdges
    ["AB", "BC"]).edge
    "A" "D" (some "Dockerized"))

/-- The graph the script hands to `render`. -/
def builtGraph : Digraph :=
  buildGraph { argv := [], environ := [], stdinData := "" }

/-- The successive in-memory states of the graph during the script run, one
entry per library call (creation, the four node additions, the two edges of
the batch call, the final labeled edge). -/
def buildTrace : List Digraph :=
  let s0 := Digraph.create "Architecture Blockchain e-Sante"
  let s1 := s0.node "A" "Microservice medcin"
  let s2 := s1.node "B" "Blockchain Node"
  let s3 := s2.node "C" "Base de Donnees"
  let s4 := s3.node "D" "Docker Container"
  let s5 := s4.edge "A" "B" none
  let s6 := s5.edge "B" "C" none
  let s7 := s6.edge "A" "D" (some "Dockerized")
  [s0, s1, s2, s3, s4, s5, s6, s7]

/-- The render call of the script: base name `architecture_esante`, format
`png`, auto-open requested, run against a filesystem and the availability of
the external renderer. -/
def scriptRender (rendererPresent writable : Bool) (fs : FS) :
    FS × Except RenderError String :=
  builtGraph.render "architecture_esante" "png" rendererPresent writable true fs

/-- The graph handles reachable through the library contract of the spec:
those produced from `create` by `add_node`, `add_edge` and the batch edge
call. -/
inductive Reachable : Digraph → Prop where
  | create (title : String) : Reachable (Digraph.create title)
  | node (g : Digraph) (i l : String) : Reachable g → Reachable (g.node i l)
  | edge (g : Digraph) (f t : String) (l : Option String) :
      Reachable g → Reachable (g.edge f t l)
  | addEdges (g : Digraph) (l : List String) :
      Reachable g → Reachable (g.addEdges l)

end GraphViz

namespace GraphViz

theorem nodes_node_exists (g : Digraph) (i l : String)
    (h : g.nodes.any (fun n => n.id == i) = true) :
    (g.node i l).nodes =
      g.nodes.map (fun n => if n.id == i then ⟨i, l⟩ else n) := by
  simp [Digraph.node, h]

theorem nodes_node_fresh (g : Digraph) (i l : String)
    (h : g.nodes.any (fun n => n.id == i) = false) :
    (g.node i l).nodes = g.nodes ++ [⟨i, l⟩] := by
  simp [Digraph.node, h]

theorem overwrite_id (n : Node) (i lab : String) :
    (if n.id == i then Node.mk i lab else n).id = n.id := by
  cases hn : (n.id == i) with
  | true =>
      simp only [hn, if_true]
      exact (eq_of_beq hn).symm
  | false => simp [hn]

theorem map_id_overwrite (l : List Node) (i lab : String) :
    ((l.map (fun n => if n.id == i then Node.mk i lab else n)).map Node.id) =
      l.map Node.id := by
  induction l with
  | nil => rfl
  | cons n t ih =>
      simp only [List.map_cons, overwrite_id, ih]

theorem count_map_overwrite (l : List Node) (i lab : String) :
    ((l.map (fun n => if n.id == i then Node.mk i lab else n)).countP
        (fun n => n.id == i)) =
      l.countP (fun n => n.id == i) := by
  induction l with
  | nil => rfl
  | cons n t ih =>
      rw [List.map_cons, List.countP_cons, List.countP_cons, ih]
      have hp : ((if n.id == i then Node.mk i lab else n).id == i) = (n.id == i) :=
        congrArg (· == i) (overwrite_id n i lab)
      rw [hp]

theorem find_overwrite (l : List Node) (i lab : String) :
    (List.find? (fun n => n.id == i)
        (l.map (fun n => if n.id == i then Node.mk i lab else n))) =
      (if l.any (fun n => n.id == i) then some ⟨i, lab⟩ else none) := by
  induction l with
  | nil => rfl
  | cons n t ih =>
      cases hn : (n.id == i) with
      | true =>
          have hfn : (if n.id == i then Node.mk i lab else n) = ⟨i, lab⟩ := by
            simp [hn]
          rw [List.map_cons, hfn]
          simp [List.find?_cons, List.any_cons, hn]
      | false =>
          have hfn : (if n.id == i then Node.mk i lab else n) = n := by
            simp [hn]
          rw [List.map_cons, hfn, List.find?_cons_of_neg _ (by simp [hn]),
            ih, List.any_cons, hn, Bool.false_or]

theorem any_node_self (g : Digraph) (i l : String) :
    ((g.node i l).nodes.any (fun n => n.id == i)) = true := by
  cases hany : g.nodes.any (fun n => n.id == i) with
  | true =>
      rw [nodes_node_exists g i l hany]
      obtain ⟨n0, hm, hb⟩ := List.any_eq_true.mp hany
      refine List.any_eq_true.mpr ⟨⟨i, l⟩, ?_, by simp⟩
      exact List.mem_map.mpr ⟨n0, hm, by simp [hb]⟩
  | false =>
      rw [nodes_node_fresh g i l hany]
      simp

theorem node_preserves_nodup (g : Digraph) (i l : String)
    (h : (g.nodes.map Node.id).Nodup) :
    ((g.node i l).nodes.map Node.id).Nodup := by
  cases hany : g.nodes.any (fun n => n.id == i) with
  | true =>
      rw [nodes_node_exists g i l hany, map_id_overwrite]
      exact h
  | false =>
      rw [nodes_node_fresh g i l hany, List.map_append]
      refine List.nodup_append.mpr ⟨h, by simp, ?_⟩
      intro a ha hb
      obtain ⟨n0, hn0, hid⟩ := List.mem_map.mp ha
      have ha' : a = i := by simpa using hb
      have : ¬(n0.id == i) = true := (List.any_eq_false.mp hany) n0 hn0
      exact this (by simp [hid, ha'])

theorem addEdges_nodes (g : Digraph) (l : List String) :
    (g.addEdges l).nodes = g.nodes := by
  induction l generalizing g with
  | nil => rfl
  | cons s t ih =>
      show (Digraph.addEdges (g.edge (s.take 1) (s.drop 1) none) t).nodes = g.nodes
      rw [ih]
      rfl

/-- Every reachable graph handle has pairwise distinct node identifiers:
the overwrite semantics of `add_node` never lets a duplicate in. -/
theorem reachable_nodup (g : Digraph) (h : Reachable g) :
    (g.nodes.map Node.id).Nodup := by
  induction h with
  | create title => simp [Digraph.create]
  | node g i l _ ih => exact node_preserves_nodup g i l ih
  | edge g f t l _ ih => exact ih
  | addEdges g l _ ih => rw [addEdges_nodes]; exact ih

theorem countP_nodes_eq_count (l : List Node) (i : String) :
    l.countP (fun n => n.id == i) = List.count i (l.map Node.id) := by
  rw [List.count_eq_countP, List.countP_map]
  rfl

theorem mem_ids_after_node (g : Digraph) (i l : String) :
    i ∈ (g.node i l).nodes.map Node.id := by
  obtain ⟨n0, hm, hb⟩ := List.any_eq_true.mp (any_node_self g i l)
  exact List.mem_map.mpr ⟨n0, hm, eq_of_beq hb⟩

theorem countP_node_self (g : Digraph) (i l : String)
    (h : (g.nodes.map Node.id).Nodup) :
    ((g.node i l).nodes.countP (fun n => n.id == i)) = 1 := by
  rw [countP_nodes_eq_count]
  exact List.count_eq_one_of_mem (node_preserves_nodup g i l h)
    (mem_ids_after_node g i l)

theorem lookupNode_node_self (g : Digraph) (i l : String) :
    (g.node i l).lookupNode i = some l := by
  cases hany : g.nodes.any (fun n => n.id == i) with
  | true =>
      unfold Digraph.lookupNode
      rw [nodes_node_exists g i l hany, find_overwrite, if_pos hany]
      rfl
  | false =>
      unfold Digraph.lookupNode
      rw [nodes_node_fresh g i l hany]
      rw [List.find?_append]
      have hnone : List.find? (fun n => n.id == i) g.nodes = none :=
        List.find?_eq_none.mpr (fun n hn => by
          simpa using (List.any_eq_false.mp hany) n hn)
      rw [hnone]
      simp

end GraphViz

namespace GraphViz

/-- C1: after the four node additions of the script, the graph contains
exactly four nodes, and looking up each of the identifiers `A`, `B`, `C`,
`D` returns its assigned label unchanged. -/
theorem builtGraph_four_nodes :
    builtGraph.nodes.length = 4 ∧
    builtGraph.lookupNode "A" = some "Microservice medcin" ∧
    builtGraph.lookupNode "B" = some "Blockchain Node" ∧
    builtGraph.lookupNode "C" = some "Base de Donnees" ∧
    builtGraph.lookupNode "D" = some "Docker Container" := by
  refine ⟨rfl, rfl, rfl, rfl, rfl⟩

/-- C2: after the batch edges `A -> B`, `B -> C` and the labeled edge
`A -> D`, the graph contains exactly three directed edges, in order, with
their ordered endpoint pairs, the third carrying the label `Dockerized` and
the first two carrying no label. -/
theorem builtGraph_three_edges :
    builtGraph.edges.length = 3 ∧
    builtGraph.edges =
      [⟨"A", "B", none⟩, ⟨"B", "C", none⟩, ⟨"A", "D", some "Dockerized"⟩] := by
  refine ⟨rfl, rfl⟩

/-- C4: for every graph and every pair of identifiers, `add_edge` records the
edge (appended, with the given endpoints and label) and touches nothing else,
without any validation against the node collection: it succeeds on every
graph, including those where neither endpoint was ever added as a node. -/
theorem edge_no_validation (g : Digraph) (f t : String) (l : Option String) :
    (g.edge f t l).edges = g.edges ++ [⟨f, t, l⟩] ∧
    (g.edge f t l).nodes = g.nodes ∧
    (g.edge f t l).comment = g.comment := by
  refine ⟨rfl, rfl, rfl⟩

/-- C5: when the external renderer is present and the path is writable, the
script's render call with base name `architecture_esante` and format `png`
succeeds (returns `ok`, raising nothing) with the output file named exactly
`architecture_esante.png`, whose content is then on the filesystem. -/
theorem scriptRender_png_ok (fs : FS) :
    (scriptRender true true fs).2 = Except.ok "architecture_esante.png" ∧
    (scriptRender true true fs).1 "architecture_esante.png" =
      some builtGraph.describe := by
  constructor
  · rfl
  · simp [scriptRender, Digraph.render, FS.write]

/-- C6: render fails exactly under two conditions, surfaced as the result of
the call (the script installs no handler): when the renderer is absent it is
the `externalToolMissing` error, when the renderer is present but the path is
not writable it is the `writeFailure` error, and in both failure cases the
filesystem is left exactly as it was (no partial or corrupt output file); it
succeeds precisely when the renderer is present and the path is writable. -/
theorem render_error_taxonomy (g : Digraph) (n f : String)
    (p w v : Bool) (fs : FS) :
    ((g.render n f p w v fs).2.isOk = (p && w)) ∧
    (g.render n f false w v fs = (fs, Except.error RenderError.externalToolMissing)) ∧
    (g.render n f true false v fs = (fs, Except.error RenderError.writeFailure)) := by
  refine ⟨?_, ?_, ?_⟩
  · cases p <;> cases w <;> simp [Digraph.render, Except.isOk, Except.toBool]
  · simp [Digraph.render]
  · simp [Digraph.render]

/-- C7: rendering twice with the same base name and format (renderer present,
path writable) deterministically overwrites: the second call writes the same
single output file name, whose content is the second graph's description, and
every other file name is exactly as it was before both calls — no
accumulation of versioned files. -/
theorem render_twice_overwrites (g1 g2 : Digraph) (n f : String)
    (v1 v2 : Bool) (fs : FS) :
    ((g2.render n f true true v2 ((g1.render n f true true v1 fs).1)).2 =
      Except.ok (n ++ "." ++ f)) ∧
    (∀ name : String,
      (g2.render n f true true v2 ((g1.render n f true true v1 fs).1)).1 name =
        if name = n ++ "." ++ f then some g2.describe else fs name) := by
  constructor
  · rfl
  · intro name
    by_cases h : name = n ++ "." ++ f <;>
      simp [Digraph.render, FS.write, h]

/-- C9: at every point of the script run, every edge present in the graph has
both its endpoints among the identifiers of nodes already added by an earlier
add-node call of the script, so at render time no edge references an
undeclared node even though no operation enforces this. -/
theorem buildTrace_edges_declared :
    ∀ i : Fin buildTrace.length,
      ((buildTrace.get i).edges.all (fun e =>
        ((buildTrace.get i).nodes.any (fun nd => nd.id == e.src)) &&
        ((buildTrace.get i).nodes.any (fun nd => nd.id == e.tgt)))) = true := by
  decide

/-- C3: on every reachable graph handle, adding a node with identifier `i`
and label `X` and then adding a node with the same identifier and label `Y`
leaves the graph with a single node for `i`, whose label is `Y`: last write
wins, overwrite rather than accumulation. -/
theorem add_node_last_write_wins (g : Digraph) (i X Y : String)
    (h : Reachable g) :
    (((g.node i X).node i Y).nodes.countP (fun n => n.id == i)) = 1 ∧
    ((g.node i X).node i Y).lookupNode i = some Y := by
  have hnd1 : ((g.node i X).nodes.map Node.id).Nodup :=
    node_preserves_nodup g i X (reachable_nodup g h)
  exact ⟨countP_node_self (g.node i X) i Y hnd1,
    lookupNode_node_self (g.node i X) i Y⟩

/-- Witness for C3: the overwrite theorem applied to the freshly created
empty graph, with identifier `A` and labels `X` then `Y`. -/
theorem add_node_last_write_wins_witness :
    ((((Digraph.create "G").node "A" "X").node "A" "Y").nodes.countP
        (fun n => n.id == "A")) = 1 ∧
    (((Digraph.create "G").node "A" "X").node "A" "Y").lookupNode "A" =
      some "Y" :=
  add_node_last_write_wins (Digraph.create "G") "A" "X" "Y"
    (Reachable.create "G")

/-- C8: no state of the script run ever mutates what an earlier state built:
every node (identifier and label) and every edge (endpoints and label)
present at some point of the run is still present, unchanged, at every later
point; and the graph handed to `render` is exactly the final build state, the
render call producing only a filesystem and a result, never a changed graph
— the two phases "being built" then "rendered", with no transition back. -/
theorem buildTrace_monotone :
    (∀ i j : Fin buildTrace.length, i ≤ j →
      (((buildTrace.get i).nodes.all
          (fun nd => (buildTrace.get j).nodes.contains nd)) = true ∧
       ((buildTrace.get i).edges.all
          (fun e => (buildTrace.get j).edges.contains e)) = true)) ∧
    buildTrace.get ⟨7, by decide⟩ = builtGraph := by
  constructor
  · decide
  · decide

/-- Witness for C8: the initial state's nodes and edges all persist into the
final state. -/
theorem buildTrace_monotone_witness :
    ((buildTrace.get ⟨0, by decide⟩).nodes.all
        (fun nd => (buildTrace.get ⟨7, by decide⟩).nodes.contains nd)) = true ∧
    ((buildTrace.get ⟨0, by decide⟩).edges.all
        (fun e => (buildTrace.get ⟨7, by decide⟩).edges.contains e)) = true :=
  buildTrace_monotone.1 ⟨0, by decide⟩ ⟨7, by decide⟩ (by decide)

/-- C10: the graph construction is fully deterministic and input-independent:
whatever the process arguments, environment variables and input data, the
script builds the same fixed graph, and the textual graph description handed
to the renderer is the same fixed constant on every run. -/
theorem buildGraph_deterministic (env : Env) :
    buildGraph env = builtGraph ∧
    (buildGraph env).describe = builtGraph.describe := by
  refine ⟨rfl, rfl⟩

end GraphViz
